import Mathlib

/-!
Verification of the Text Q&A Assistant (`src/document_loader.py`) against its
natural-language specification.  The Streamlit application is embedded
shallowly: the per-session mutable state (`st.session_state`) becomes an
explicit `Session` record, each user action becomes a pure state
transformer, and the fallible remote model call inside `generate_answer`
becomes an `Except String String` argument abstracting the outcome of
`chain.invoke` (and an `Except String Unit` for `init_model`).
-/

namespace DocLoader

/-- Predicate matching the ASCII characters stripped by Python string
whitespace handling: space, tab, newline, carriage return, vertical tab,
form feed. -/
def isPySpace (c : Char) : Bool :=
  c = ' ' || c = '\t' || c = '\n' || c = '\r' || c = Char.ofNat 11 || c = Char.ofNat 12

/-- Model of Python `s.strip()`: removes leading and trailing whitespace
characters. -/
def pyStrip (s : String) : String :=
  String.mk (((s.data.dropWhile isPySpace).reverse.dropWhile isPySpace).reverse)

/-- Accumulator-based splitter over the character list: collects maximal
runs of non-whitespace characters, skipping runs of whitespace. -/
def splitWordsAux : List Char → List Char → List String
  | [], acc => if acc.isEmpty then [] else [String.mk acc.reverse]
  | c :: cs, acc =>
    if isPySpace c then
      if acc.isEmpty then splitWordsAux cs []
      else String.mk acc.reverse :: splitWordsAux cs []
    else splitWordsAux cs (c :: acc)

/-- Model of Python `s.split()` with no argument: splits on runs of
whitespace and discards empty pieces. -/
def pySplit (s : String) : List String :=
  splitWordsAux s.data []

/-- Line 151/156 of the source: `len(st.session_state.user_text.split())`,
the number of whitespace-delimited words. -/
def word_count (t : String) : Nat :=
  (pySplit t).length

/-- Model of Python `round(n / d)` for natural `n`, `d > 0`: the quotient
rounded to the nearest integer, ties going to the even integer (the IEEE
half-even behaviour of Python round on floats; for `n / 200` every tie is
exactly representable, so the float computation agrees with the rational
one). -/
def pyRoundDiv (n d : Nat) : Nat :=
  if 2 * (n % d) < d then n / d
  else if d < 2 * (n % d) then n / d + 1
  else if (n / d) % 2 = 0 then n / d else n / d + 1

/-- Lines 156-157 of the source:
`reading_time = max(1, round(word_count / 200))`. -/
def reading_time (t : String) : Nat :=
  max 1 (pyRoundDiv (word_count t) 200)

/-- The reading time the specification sentence claims: word count divided
by 200 and rounded UP, minimum 1.  Written from the words of the claim, to
be compared with `reading_time`. -/
def reading_time_claimed (t : String) : Nat :=
  max 1 ((word_count t + 199) / 200)

/-- One recorded question/answer pair (the dict appended at lines
190-194 of the source). -/
structure QAEntry where
  question : String
  answer : String
  timestamp : String
deriving DecidableEq, Repr

/-- The per-session mutable state (`st.session_state` fields initialised by
`init_session_state`, lines 32-43 of the source). -/
structure Session where
  user_text : String
  qa_history : List QAEntry
  current_answer : String
  file_uploaded : Bool
  file_name : String
deriving DecidableEq, Repr

/-- Lines 34-43 of the source: every field default-initialised to its empty
value. -/
def init_session_state : Session :=
  { user_text := "", qa_history := [], current_answer := "",
    file_uploaded := false, file_name := "" }

/-- Lines 105-111 of the source: the Clear All Data button body, which
assigns every session field its empty default. -/
def clearAll (_s : Session) : Session :=
  { user_text := "", qa_history := [], current_answer := "",
    file_uploaded := false, file_name := "" }

/-- Lines 121-127 of the source: a completed file upload stores the decoded
content as `user_text`, sets the uploaded flag and records the file name. -/
def uploadFile (s : Session) (content : String) (name : String) : Session :=
  { s with user_text := content, file_uploaded := true, file_name := name }

/-- Lines 138-142 of the source: when the text area content differs from
the stored text, overwrite `user_text` and clear the upload marker;
otherwise nothing changes. -/
def manualEdit (s : Session) (t : String) : Session :=
  if t ≠ s.user_text then
    { s with user_text := t, file_uploaded := false, file_name := "" }
  else s

/-- Lines 49-77 of the source, the body of the `try` block: `init_model()`
may raise, then `chain.invoke(...)` may raise or return the parsed string.
Both fallible steps are abstracted by their `Except` outcomes. -/
def tryChain (initRes : Except String Unit) (invokeRes : Except String String) :
    Except String String := do
  let _ ← initRes
  invokeRes

/-- Lines 47-80 of the source: `generate_answer` runs the chain and, on any
exception `e`, returns the string `"Error generating answer: " ++ str(e)`.
The `context_text` and `question` arguments are embedded into the prompt
consumed by the abstracted model call. -/
def generate_answer (_context_text _question : String)
    (initRes : Except String Unit) (invokeRes : Except String String) : String :=
  match tryChain initRes invokeRes with
  | Except.ok r => r
  | Except.error e => "Error generating answer: " ++ e

/-- Lines 182-198 of the source: the submit handler.  Generation and the
history append happen only when the form was submitted and the question is
non-empty after stripping; the same answer string is appended to the
history and stored as `current_answer`.  The returned boolean records
whether `generate_answer` was invoked. -/
def submitQuestion (s : Session) (question : String) (submitted : Bool)
    (initRes : Except String Unit) (invokeRes : Except String String)
    (ts : String) : Session × Bool :=
  if submitted && (pyStrip question ≠ "") then
    let answer := generate_answer s.user_text question initRes invokeRes
    ({ s with
        qa_history := s.qa_history ++ [⟨question, answer, ts⟩],
        current_answer := answer }, true)
  else (s, false)

/-- Lines 144-158 of the source: the statistics block renders only when
`user_text` is truthy, i.e. non-empty. -/
def stats_shown (t : String) : Bool :=
  t ≠ ""

/-- Lines 164-166 of the source: the large-text warning renders when the
statistics block is shown and `len(user_text) > 50000`. -/
def warning_shown (t : String) : Bool :=
  (t ≠ "") && decide (50000 < t.length)

/-- Line 228 of the source: `reversed(qa_history[-5:])`, the list of
entries the history panel iterates over. -/
def displayed_history (h : List QAEntry) : List QAEntry :=
  (h.drop (h.length - 5)).reverse

/-- Line 229 of the source: `qa['question'][:50]`, the question fragment
used in the expander label (Python slicing by code point). -/
def question_label (e : QAEntry) : String :=
  String.mk (e.question.data.take 50)

/-- Model of Python `load_dotenv()`: entries of the `.env` file are added
to the process environment without overriding keys already present. -/
def load_dotenv (dotenv env : List (String × String)) : List (String × String) :=
  env ++ dotenv.filter (fun kv => (env.lookup kv.fst).isNone)

/-- Lines 9-18 of the source: the module-level startup sequence runs
`load_dotenv()` and `st.set_page_config(...)`.  Neither statement reads or
validates the model credential, so startup never raises a configuration
error: it always succeeds with the merged environment. -/
def startup (dotenv env : List (String × String)) :
    Except String (List (String × String)) :=
  Except.ok (load_dotenv dotenv env)

/-- The invariant of claim C10: whenever the history is non-empty, the
current answer equals the answer of its last entry. -/
def lastAnswerInv (s : Session) : Prop :=
  ∀ e, s.qa_history.getLast? = some e → s.current_answer = e.answer

/-- Claim C1: for every pair of input strings and every outcome of the
model initialisation and chain invocation, `generate_answer` returns a
string and never propagates an exception: either the parsed model answer
(when the chain succeeds), or the string "Error generating answer: "
followed by the message of the raised error. -/
theorem generate_answer_total (c q : String) (i : Except String Unit)
    (v : Except String String) :
    (∃ r, tryChain i v = Except.ok r ∧ generate_answer c q i v = r) ∨
    (∃ e, tryChain i v = Except.error e ∧
      generate_answer c q i v = "Error generating answer: " ++ e) := by
  cases h : tryChain i v with
  | ok r => exact Or.inl ⟨r, rfl, by simp [generate_answer, h]⟩
  | error e => exact Or.inr ⟨e, rfl, by simp [generate_answer, h]⟩

/-- Claim C3: the clear action resets every session field — user_text,
qa_history, current_answer, file_name and the file_uploaded flag — to its
empty default; the result is exactly the freshly initialised state, so no
partially reset state is observable. -/
theorem clearAll_resets (s : Session) :
    (clearAll s).user_text = "" ∧ (clearAll s).qa_history = [] ∧
    (clearAll s).current_answer = "" ∧ (clearAll s).file_uploaded = false ∧
    (clearAll s).file_name = "" ∧ clearAll s = init_session_state :=
  ⟨rfl, rfl, rfl, rfl, rfl, rfl⟩

/-- Claim C4: for every manual text edit whose displayed text differs from
the stored user_text, after the edit user_text equals the new text, the
stored file name is empty and the uploaded marker is cleared. -/
theorem manualEdit_overwrites (s : Session) (t : String)
    (h : t ≠ s.user_text) :
    (manualEdit s t).user_text = t ∧ (manualEdit s t).file_name = "" ∧
    (manualEdit s t).file_uploaded = false := by
  simp [manualEdit, h]

/-- Witness for C4 at a concrete session and edit text. -/
theorem manualEdit_overwrites_witness :
    "hello" ≠ init_session_state.user_text ∧
    ((manualEdit init_session_state "hello").user_text = "hello" ∧
     (manualEdit init_session_state "hello").file_name = "" ∧
     (manualEdit init_session_state "hello").file_uploaded = false) :=
  ⟨by decide, manualEdit_overwrites init_session_state "hello" (by decide)⟩

/-- Claim C8: changing the context text — by a new file upload or a manual
edit — leaves the question/answer history unchanged (and the latest answer
too): both operations touch only user_text and the upload metadata. -/
theorem context_change_preserves_history (s : Session) (c n t : String) :
    (uploadFile s c n).qa_history = s.qa_history ∧
    (manualEdit s t).qa_history = s.qa_history ∧
    (uploadFile s c n).current_answer = s.current_answer ∧
    (manualEdit s t).current_answer = s.current_answer := by
  refine ⟨rfl, ?_, rfl, ?_⟩ <;> (unfold manualEdit; split <;> rfl)

/-- Claim C5: submitting an empty or whitespace-only question is a no-op:
whenever the question is empty after stripping, the session is unchanged
(no history entry is appended) and the generation call is not made (the
returned flag is false). -/
theorem empty_question_noop (s : Session) (question : String)
    (submitted : Bool) (i : Except String Unit) (v : Except String String)
    (ts : String) (h : pyStrip question = "") :
    submitQuestion s question submitted i v ts = (s, false) := by
  simp [submitQuestion, h]

/-- Witness for C5 at a concrete whitespace-only question. -/
theorem empty_question_noop_witness :
    pyStrip "   " = "" ∧
    submitQuestion init_session_state "   " true (Except.ok ())
      (Except.ok "ans") "00:00:00" = (init_session_state, false) :=
  ⟨by decide, empty_question_noop init_session_state "   " true (Except.ok ())
    (Except.ok "ans") "00:00:00" (by decide)⟩

/-- Helper: the warning renders exactly on texts longer than 50000
characters (a text that long is in particular non-empty, so the enclosing
statistics guard is implied). -/
theorem warning_shown_iff (t : String) :
    warning_shown t = true ↔ 50000 < t.length := by
  simp only [warning_shown, Bool.and_eq_true, decide_eq_true_eq]
  constructor
  · rintro ⟨_, h⟩; exact h
  · intro h
    refine ⟨?_, h⟩
    intro he
    subst he
    simp at h

/-- Helper: the length of a string built from an explicit character
list. -/
theorem length_mk (l : List Char) : (String.mk l).length = l.length :=
  rfl

/-- Claim C6: the large-text warning condition holds exactly when the
context is longer than 50000 characters: true at length 60000, false at
exactly 50000. -/
theorem warning_threshold :
    (∀ t, warning_shown t = true ↔ 50000 < t.length) ∧
    warning_shown (String.mk (List.replicate 60000 'a')) = true ∧
    warning_shown (String.mk (List.replicate 50000 'a')) = false := by
  refine ⟨warning_shown_iff, ?_, ?_⟩
  · rw [warning_shown_iff, length_mk, List.length_replicate]
    omega
  · have h : ¬ (50000 < (String.mk (List.replicate 50000 'a')).length) := by
      rw [length_mk, List.length_replicate]
      omega
    cases hb : warning_shown (String.mk (List.replicate 50000 'a')) with
    | false => rfl
    | true => exact absurd ((warning_shown_iff _).mp hb) h

/-- Helper: the iterated history slice equals the first five entries of the
reversed history. -/
theorem displayed_history_eq (h : List QAEntry) :
    displayed_history h = h.reverse.take 5 := by
  have hr := List.rtake_eq_reverse_take_reverse (l := h) (n := 5)
  unfold displayed_history
  rw [show h.drop (h.length - 5) = List.rtake h 5 from rfl, hr,
    List.reverse_reverse]

/-- Claim C7: the history panel iterates over the at most five most recent
entries, newest first (the first five entries of the reversed history), and
the label of each entry uses only the first 50 characters of its
question. -/
theorem history_panel (h : List QAEntry) (e : QAEntry) :
    displayed_history h = h.reverse.take 5 ∧
    (displayed_history h).length = min 5 h.length ∧
    (displayed_history h).length ≤ 5 ∧
    (question_label e).data = e.question.data.take 50 ∧
    (question_label e).length ≤ 50 := by
  refine ⟨displayed_history_eq h, ?_, ?_, rfl, ?_⟩
  · rw [displayed_history_eq h, List.length_take, List.length_reverse]
  · rw [displayed_history_eq h, List.length_take, List.length_reverse]
    omega
  · show (e.question.data.take 50).length ≤ 50
    exact List.length_take_le 50 e.question.data

/-- Claim C10: the invariant that the current answer equals the answer of
the last history entry (whenever the history is non-empty) is preserved by
question submission, clear, manual edit and file upload. -/
theorem lastAnswer_invariant (s : Session) (question c n t ts : String)
    (submitted : Bool) (i : Except String Unit) (v : Except String String)
    (hInv : lastAnswerInv s) :
    lastAnswerInv (submitQuestion s question submitted i v ts).fst ∧
    lastAnswerInv (clearAll s) ∧
    lastAnswerInv (manualEdit s t) ∧
    lastAnswerInv (uploadFile s c n) := by
  refine ⟨?_, ?_, ?_, ?_⟩
  · unfold submitQuestion
    split
    · intro e he
      simp only at he ⊢
      rw [List.getLast?_concat] at he
      injection he with he
      subst he
      rfl
    · exact hInv
  · intro e he
    simp [clearAll] at he
  · unfold manualEdit
    split
    · exact fun e he => hInv e he
    · exact hInv
  · exact fun e he => hInv e he

/-- Witness for C10 at the freshly initialised session. -/
theorem lastAnswer_invariant_witness :
    lastAnswerInv init_session_state ∧
    (lastAnswerInv (submitQuestion init_session_state "q" true (Except.ok ())
        (Except.ok "a") "00:00:00").fst ∧
     lastAnswerInv (clearAll init_session_state) ∧
     lastAnswerInv (manualEdit init_session_state "x") ∧
     lastAnswerInv (uploadFile init_session_state "c" "n")) := by
  have base : lastAnswerInv init_session_state := by
    intro e he
    simp [init_session_state] at he
  exact ⟨base, lastAnswer_invariant init_session_state "q" "c" "n" "x"
    "00:00:00" true (Except.ok ()) (Except.ok "a") base⟩

set_option maxRecDepth 40000 in
/-- Claim C2 counterexample: on a context of 201 whitespace-delimited
words, the displayed reading time is max(1, round(201 / 200)) = 1, while
the claimed formula (divide by 200 and round UP, minimum 1) gives 2.  The
claim as stated is therefore false. -/
theorem reading_time_counterexample :
    reading_time (String.intercalate " " (List.replicate 201 "a")) = 1 ∧
    reading_time_claimed (String.intercalate " " (List.replicate 201 "a")) = 2 ∧
    reading_time (String.intercalate " " (List.replicate 201 "a")) ≠
      reading_time_claimed (String.intercalate " " (List.replicate 201 "a")) := by
  refine ⟨?_, ?_, ?_⟩ <;> decide

/-- Claim C2 (amended): for every context text, the displayed reading time
equals max(1, word_count / 200 rounded to the NEAREST integer, ties to
even — the behaviour of Python round), not rounded up: the rounded value k
satisfies |200 k − word_count| ≤ 100, and on an exact tie the result is
even. -/
theorem reading_time_amended (t : String) :
    reading_time t = max 1 (pyRoundDiv (word_count t) 200) ∧
    (∀ n : Nat, ((200 * pyRoundDiv n 200 : ℤ) - n).natAbs ≤ 100) ∧
    (∀ k : Nat, pyRoundDiv (200 * k + 100) 200 % 2 = 0) := by
  refine ⟨rfl, ?_, ?_⟩
  · intro n
    unfold pyRoundDiv
    split
    · omega
    · split
      · omega
      · split <;> omega
  · intro k
    unfold pyRoundDiv
    split
    · omega
    · split
      · omega
      · split <;> omega

/-- Claim C9 counterexample: with no .env file and a process environment
that lacks the credential, startup succeeds and raises no configuration
error — the program does not fail fast. -/
theorem startup_no_failfast :
    List.lookup "GOOGLE_API_KEY" ([] : List (String × String)) = none ∧
    startup [] [] = Except.ok [] :=
  ⟨rfl, rfl⟩

/-- Claim C9 (amended): startup never checks the credential and always
succeeds (it only merges the .env entries into the environment); a missing
credential surfaces later, at the first question submission, where the
exception raised inside the generation chain is caught and converted to an
"Error generating answer: " string. -/
theorem startup_amended (dotenv env : List (String × String))
    (c q m : String) (v : Except String String) :
    startup dotenv env = Except.ok (load_dotenv dotenv env) ∧
    generate_answer c q (Except.error m) v = "Error generating answer: " ++ m :=
  ⟨rfl, rfl⟩

end DocLoader
